import Mathlib

/-!
Shallow embedding of `src/main.py` (whatsapp_poll): a scheduled notification
script that resolves today's message from a fetched schedule document, builds
a webhook payload and posts it.  Environment-variable values, the fetched
document and the network results are passed in explicitly; dictionary lookups
that can raise in Python are modelled with `Option` fields and `Except`.
-/

namespace WhatsappPoll

/-- The environment variables read at module load (`os.environ.get(..., "")`).
A missing variable is the empty string, exactly as in the source. -/
structure Env where
  GREENAPI_URL : String
  GREENAPI_INSTANCE_ID : String
  GREENAPI_API_TOKEN : String
  CHAT_ID : String
  SANITY_SCHEDULE_URL : String
  deriving Repr, DecidableEq

/-- `API_URL_POLL` from the source, as a function of the environment. -/
def API_URL_POLL (env : Env) : String :=
  env.GREENAPI_URL ++ "/waInstance" ++ env.GREENAPI_INSTANCE_ID ++ "/sendPoll/"
    ++ env.GREENAPI_API_TOKEN

/-- `API_URL_MESSAGE` from the source, as a function of the environment. -/
def API_URL_MESSAGE (env : Env) : String :=
  env.GREENAPI_URL ++ "/waInstance" ++ env.GREENAPI_INSTANCE_ID ++ "/sendMessage/"
    ++ env.GREENAPI_API_TOKEN

def POSITIVE_ANSWER : String := "Kyllä"
def NEGATIVE_ANSWER : String := "Ei"
def CANCEL_TEXT : String := "Huom, tänään treeni peruttu!"
def EXCEPTION_TEXT : String := "Tänään poikkeukselliset treenit."
def STANDARD_TEXT : String := "Tänään vääntämään klo"
def MESSAGE_ERROR : String := "❌ Invalid schedule data structure"
def USE_SAMPLE_RESPONSE : Bool := false

/-- The `weekDay` sub-object of a training day (only `key` is read). -/
structure WeekDay where
  key : String
  deriving Repr, DecidableEq

/-- One `trainingDays` entry (the fields the script reads). -/
structure TrainingDay where
  weekDay : WeekDay
  startTime : String
  deriving Repr, DecidableEq

/-- One `canceledDays` entry. -/
structure CanceledDay where
  date : String
  deriving Repr, DecidableEq

/-- One `exceptionDays` entry (the fields the script reads). -/
structure ExceptionDay where
  date : String
  startTime : String
  deriving Repr, DecidableEq

/-- The first element of `result`: a dictionary whose keys
`trainingDays`/`canceledDays`/`exceptionDays` may be absent (`none` models a
missing key, on which Python raises `KeyError`). -/
structure AllDays where
  trainingDays : Option (List TrainingDay)
  canceledDays : Option (List CanceledDay)
  exceptionDays : Option (List ExceptionDay)
  deriving Repr, DecidableEq

/-- The fetched schedule document: `result` may be a missing key (`none`) or a
list of `AllDays` blocks. -/
structure ScheduleData where
  result : Option (List AllDays)
  deriving Repr, DecidableEq

/-- The Python value returned by `get_message_for_current_day`: `None`, the
bare string `MESSAGE_ERROR`, or a `(url, message)` tuple. -/
inductive ResolveResult where
  | nothing
  | errStr (s : String)
  | pair (url message : String)
  deriving Repr, DecidableEq

/-- `get_message_for_current_day`.  `.error` models an uncaught Python
exception (a `KeyError` on a missing dictionary key, or the impossible
`StopIteration` of `next`). -/
def get_message_for_current_day (env : Env) (data : ScheduleData)
    (current_date : String) (day_of_week : String) : Except String ResolveResult :=
  match data.result with
  | none => .ok (.errStr MESSAGE_ERROR)
  | some [] => .ok (.errStr MESSAGE_ERROR)
  | some (all_days :: _) =>
    match all_days.trainingDays with
    | none => .error "KeyError: trainingDays"
    | some training_days =>
      match all_days.canceledDays with
      | none => .error "KeyError: canceledDays"
      | some canceled_days =>
        match all_days.exceptionDays with
        | none => .error "KeyError: exceptionDays"
        | some exception_days =>
          if (canceled_days.map (fun d => d.date)).contains current_date then
            .ok (.pair (API_URL_MESSAGE env) CANCEL_TEXT)
          else if (exception_days.map (fun d => d.date)).contains current_date then
            match exception_days.find? (fun d => d.date == current_date) with
            | some exception =>
              .ok (.pair (API_URL_POLL env)
                (EXCEPTION_TEXT ++ " " ++ STANDARD_TEXT ++ " " ++ exception.startTime ++ "?"))
            | none => .error "StopIteration"
          else if training_days.any (fun td => td.weekDay.key == day_of_week) then
            match training_days.find? (fun td => td.weekDay.key == day_of_week) with
            | some training_day =>
              .ok (.pair (API_URL_POLL env)
                (STANDARD_TEXT ++ " " ++ training_day.startTime ++ "?"))
            | none => .error "StopIteration"
          else
            .ok .nothing

/-- A poll option dictionary `{"optionName": ...}`. -/
structure PollOption where
  optionName : String
  deriving Repr, DecidableEq

/-- The JSON body built by `build_payload`.  `none` in `multipleAnswers` /
`options` models the key being absent from the dictionary. -/
structure Payload where
  chatId : String
  message : String
  multipleAnswers : Option Bool
  options : Option (List PollOption)
  deriving Repr, DecidableEq

/-- `build_payload`: `none` in and out models Python `None`. -/
def build_payload (env : Env) (message : Option String) : Option Payload :=
  match message with
  | none => none
  | some m =>
    if m == CANCEL_TEXT then
      some { chatId := env.CHAT_ID, message := m
             multipleAnswers := none, options := none }
    else
      some { chatId := env.CHAT_ID, message := m
             multipleAnswers := some false
             options := some [{ optionName := POSITIVE_ANSWER },
                              { optionName := NEGATIVE_ANSWER }] }

/-- The `required_vars` dictionary of `validate_environment`
(note: `GREENAPI_URL` is not in it). -/
def required_vars (env : Env) : List (String × String) :=
  [("GREENAPI_INSTANCE_ID", env.GREENAPI_INSTANCE_ID),
   ("GREENAPI_API_TOKEN", env.GREENAPI_API_TOKEN),
   ("WHATSAPP_CHAT_ID", env.CHAT_ID),
   ("SANITY_SCHEDULE_URL", env.SANITY_SCHEDULE_URL)]

/-- The `missing` list computed inside `validate_environment` (a Python value
is falsy here exactly when it is the empty string). -/
def missing_env_vars (env : Env) : List String :=
  ((required_vars env).filter (fun p => p.2 == "")).map (fun p => p.1)

/-- `validate_environment`. -/
def validate_environment (env : Env) : Bool :=
  missing_env_vars env == []

/-- `SAMPLE_RESPONSE` (the fields the script reads). -/
def SAMPLE_RESPONSE : ScheduleData :=
  { result := some [
      { canceledDays := some [
          { date := "2026-07-01" }, { date := "2025-08-11" },
          { date := "2025-09-23" }, { date := "2025-12-23" }]
        exceptionDays := some [
          { date := "2026-07-01", startTime := "18:00" },
          { date := "2025-08-12", startTime := "18:00" },
          { date := "2025-09-22", startTime := "18:00" },
          { date := "2025-12-22", startTime := "18:00" }]
        trainingDays := some [
          { weekDay := { key := "tuesday" }, startTime := "18:00" },
          { weekDay := { key := "saturday" }, startTime := "12:00" }] }] }

/-- Network side effects performed by a run of `main`, in order. -/
inductive Event where
  | fetchCall
  | sendCall (url : String) (payload : Option Payload)
  deriving Repr, DecidableEq

/-- How a run of `main` terminates.  Each constructor is one exit site of the
Python `main`; `uncaught` is an unhandled exception (Python then exits with
code 1 and a traceback).  `exitMissingEnv` carries the missing-variable names
printed before exiting; `exitDataError` is the `message == MESSAGE_ERROR`
branch that prints the data-error text. -/
inductive Outcome where
  | exitMissingEnv (missing : List String)
  | exitFetchFailed
  | exitNoTraining
  | exitDataError
  | exitSendFailed
  | exitSuccess
  | uncaught (err : String)
  deriving Repr, DecidableEq

/-- The process exit code of each outcome. -/
def exit_code : Outcome → Nat
  | .exitMissingEnv _ => 1
  | .exitFetchFailed => 1
  | .exitNoTraining => 0
  | .exitDataError => 1
  | .exitSendFailed => 1
  | .exitSuccess => 0
  | .uncaught _ => 1

/-- Python tuple unpacking `url, message = result` applied to a string:
it succeeds exactly when the string has two characters (each variable gets a
one-character string) and raises `ValueError` (`none`) otherwise. -/
def unpack_two (s : String) : Option (String × String) :=
  match s.data with
  | [c1, c2] => some (String.singleton c1, String.singleton c2)
  | _ => none

/-- The tail of `main` after `url, message = result` has succeeded: the
`message == MESSAGE_ERROR` check, `build_payload`, `send_message`.  Events are
those from this point on; `sendOk` tells whether the POST succeeds. -/
def main_after_unpack (env : Env) (url message : String) (sendOk : Bool) :
    Outcome × List Event :=
  if message == MESSAGE_ERROR then
    (.exitDataError, [])
  else
    let payload := build_payload env (some message)
    if sendOk then
      (.exitSuccess, [.sendCall url payload])
    else
      (.exitSendFailed, [.sendCall url payload])

/-- `main`.  `current_date` / `current_day` stand for the Finnish-time values;
`fetch` is the result of `get_schedule_data` (`none` = request failure);
`sendOk` the fate of the POST.  Returns the outcome and the network calls
made.  Unpacking `url, message = result` succeeds on a tuple, succeeds on a
string of exactly two characters, and raises `ValueError` otherwise. -/
def main (env : Env) (current_date current_day : String)
    (fetch : Option ScheduleData) (sendOk : Bool) : Outcome × List Event :=
  if !(validate_environment env) then
    (.exitMissingEnv (missing_env_vars env), [])
  else
    let schedule_data := if USE_SAMPLE_RESPONSE then some SAMPLE_RESPONSE else fetch
    let events := if USE_SAMPLE_RESPONSE then ([] : List Event) else [.fetchCall]
    match schedule_data with
    | none => (.exitFetchFailed, events)
    | some data =>
      match get_message_for_current_day env data current_date current_day with
      | .error e => (.uncaught e, events)
      | .ok .nothing => (.exitNoTraining, events)
      | .ok (.errStr s) =>
        match unpack_two s with
        | some (url, message) =>
          let r := main_after_unpack env url message sendOk
          (r.1, events ++ r.2)
        | none => (.uncaught "ValueError", events)
      | .ok (.pair url message) =>
        let r := main_after_unpack env url message sendOk
        (r.1, events ++ r.2)

/-! ### Helper lemmas -/

theorem ne_of_data_head {s t : String} (h : s.data.head? ≠ t.data.head?) : s ≠ t :=
  fun he => h (by rw [he])

theorem head_of_append (a b : String) (c : Char) (h : a.data.head? = some c) :
    (a ++ b).data.head? = some c := by
  rw [String.data_append]
  cases ha : a.data with
  | nil => rw [ha] at h; simp at h
  | cons x xs =>
    rw [ha] at h
    simp only [List.head?_cons, Option.some.injEq] at h
    simp [h]

theorem standard_message_head (st : String) :
    (STANDARD_TEXT ++ " " ++ st ++ "?").data.head? = some 'T' :=
  head_of_append _ _ _ (head_of_append _ _ _ (head_of_append _ _ _ rfl))

theorem exception_message_head (st : String) :
    (EXCEPTION_TEXT ++ " " ++ STANDARD_TEXT ++ " " ++ st ++ "?").data.head? = some 'T' :=
  head_of_append _ _ _ (head_of_append _ _ _ (head_of_append _ _ _
    (head_of_append _ _ _ rfl)))

theorem standard_message_ne_error (st : String) :
    STANDARD_TEXT ++ " " ++ st ++ "?" ≠ MESSAGE_ERROR := by
  apply ne_of_data_head
  rw [standard_message_head]
  decide

theorem exception_message_ne_error (st : String) :
    EXCEPTION_TEXT ++ " " ++ STANDARD_TEXT ++ " " ++ st ++ "?" ≠ MESSAGE_ERROR := by
  apply ne_of_data_head
  rw [exception_message_head]
  decide

theorem cancel_text_ne_error : CANCEL_TEXT ≠ MESSAGE_ERROR := by decide

/-- The only bare string the resolver ever returns is `MESSAGE_ERROR`. -/
theorem errStr_eq_message_error (env : Env) (data : ScheduleData)
    (current_date day_of_week s : String)
    (h : get_message_for_current_day env data current_date day_of_week
        = .ok (.errStr s)) :
    s = MESSAGE_ERROR := by
  unfold get_message_for_current_day at h
  repeat' split at h
  all_goals simp_all

/-- No `(url, message)` tuple the resolver returns carries `MESSAGE_ERROR`. -/
theorem pair_message_ne_error (env : Env) (data : ScheduleData)
    (current_date day_of_week url msg : String)
    (h : get_message_for_current_day env data current_date day_of_week
        = .ok (.pair url msg)) :
    msg ≠ MESSAGE_ERROR := by
  unfold get_message_for_current_day at h
  repeat' split at h
  all_goals simp_all
  all_goals obtain ⟨-, hmsg⟩ := h
  all_goals subst hmsg
  · exact cancel_text_ne_error
  · exact exception_message_ne_error _
  · exact standard_message_ne_error _

/-! ### Claims -/

/-- C1: for every schedule document and date, if the date appears in the
document's canceledDays entries, the resolver returns the cancellation
message targeted at the plain-message endpoint, regardless of any
exceptionDays or trainingDays entries that also match. -/
theorem C1_canceled_day_yields_plain_cancellation
    (env : Env) (data : ScheduleData) (current_date day_of_week : String)
    (all_days : AllDays) (rest : List AllDays)
    (tds : List TrainingDay) (cds : List CanceledDay) (eds : List ExceptionDay)
    (hres : data.result = some (all_days :: rest))
    (htd : all_days.trainingDays = some tds)
    (hcd : all_days.canceledDays = some cds)
    (hed : all_days.exceptionDays = some eds)
    (hmem : current_date ∈ cds.map (fun d => d.date)) :
    get_message_for_current_day env data current_date day_of_week =
      .ok (.pair (API_URL_MESSAGE env) CANCEL_TEXT) := by
  have hex : ∃ a ∈ cds, a.date = current_date := by
    obtain ⟨a, ha, hae⟩ := List.mem_map.mp hmem
    exact ⟨a, ha, hae⟩
  simp [get_message_for_current_day, hres, htd, hcd, hed, hex]

/-- C1 witness: concrete instance of the canceled-day rule. -/
theorem C1_witness :
    get_message_for_current_day
      { GREENAPI_URL := "https://api.example", GREENAPI_INSTANCE_ID := "11",
        GREENAPI_API_TOKEN := "tok", CHAT_ID := "chat@g.us",
        SANITY_SCHEDULE_URL := "https://sanity.example" }
      { result := some [{ trainingDays := some [],
                          canceledDays := some [{ date := "2025-08-11" }],
                          exceptionDays := some [{ date := "2025-08-11", startTime := "18:00" }] }] }
      "2025-08-11" "monday"
      = .ok (.pair (API_URL_MESSAGE
          { GREENAPI_URL := "https://api.example", GREENAPI_INSTANCE_ID := "11",
            GREENAPI_API_TOKEN := "tok", CHAT_ID := "chat@g.us",
            SANITY_SCHEDULE_URL := "https://sanity.example" }) CANCEL_TEXT) :=
  C1_canceled_day_yields_plain_cancellation _ _ _ _ _ _ _ _ _
    rfl rfl rfl rfl (by decide)

/-- C2: if the date is not canceled but appears in exceptionDays, the
resolver returns a poll at the poll endpoint embedding the startTime of the
first matching exceptionDays entry. -/
theorem C2_exception_day_yields_first_match_poll
    (env : Env) (data : ScheduleData) (current_date day_of_week : String)
    (all_days : AllDays) (rest : List AllDays)
    (tds : List TrainingDay) (cds : List CanceledDay) (eds : List ExceptionDay)
    (hres : data.result = some (all_days :: rest))
    (htd : all_days.trainingDays = some tds)
    (hcd : all_days.canceledDays = some cds)
    (hed : all_days.exceptionDays = some eds)
    (hnc : current_date ∉ cds.map (fun d => d.date))
    (ex : ExceptionDay)
    (hfind : eds.find? (fun d => d.date == current_date) = some ex) :
    get_message_for_current_day env data current_date day_of_week =
      .ok (.pair (API_URL_POLL env)
        (EXCEPTION_TEXT ++ " " ++ STANDARD_TEXT ++ " " ++ ex.startTime ++ "?")) := by
  have hxdate : ex.date = current_date := by
    have hp := List.find?_some hfind
    simpa using hp
  have hexE : ∃ a ∈ eds, a.date = current_date :=
    ⟨ex, List.mem_of_find?_eq_some hfind, hxdate⟩
  have hnexC : ¬∃ a ∈ cds, a.date = current_date := by
    rintro ⟨a, ha, hae⟩
    exact hnc (List.mem_map.mpr ⟨a, ha, hae⟩)
  simp [get_message_for_current_day, hres, htd, hcd, hed, hnexC, hexE, hfind]

/-- C2 witness: concrete instance with two matching exception entries; the
first one's start time wins. -/
theorem C2_witness :
    get_message_for_current_day
      { GREENAPI_URL := "https://api.example", GREENAPI_INSTANCE_ID := "11",
        GREENAPI_API_TOKEN := "tok", CHAT_ID := "chat@g.us",
        SANITY_SCHEDULE_URL := "https://sanity.example" }
      { result := some [{ trainingDays := some [],
                          canceledDays := some [{ date := "2025-09-23" }],
                          exceptionDays := some
                            [{ date := "2025-08-12", startTime := "18:00" },
                             { date := "2025-08-12", startTime := "19:30" }] }] }
      "2025-08-12" "tuesday"
      = .ok (.pair (API_URL_POLL
          { GREENAPI_URL := "https://api.example", GREENAPI_INSTANCE_ID := "11",
            GREENAPI_API_TOKEN := "tok", CHAT_ID := "chat@g.us",
            SANITY_SCHEDULE_URL := "https://sanity.example" })
          (EXCEPTION_TEXT ++ " " ++ STANDARD_TEXT ++ " " ++ "18:00" ++ "?")) :=
  C2_exception_day_yields_first_match_poll _ _ _ _ _ _ _ _ _
    rfl rfl rfl rfl (by decide)
    { date := "2025-08-12", startTime := "18:00" } (by decide)

/-- C7: if the date is neither canceled nor an exception and the weekday
matches some trainingDays entry, the resolver returns a poll at the poll
endpoint embedding the startTime of the first matching trainingDays entry. -/
theorem C7_training_day_yields_first_match_poll
    (env : Env) (data : ScheduleData) (current_date day_of_week : String)
    (all_days : AllDays) (rest : List AllDays)
    (tds : List TrainingDay) (cds : List CanceledDay) (eds : List ExceptionDay)
    (hres : data.result = some (all_days :: rest))
    (htd : all_days.trainingDays = some tds)
    (hcd : all_days.canceledDays = some cds)
    (hed : all_days.exceptionDays = some eds)
    (hnc : current_date ∉ cds.map (fun d => d.date))
    (hne : current_date ∉ eds.map (fun d => d.date))
    (td : TrainingDay)
    (hfind : tds.find? (fun t => t.weekDay.key == day_of_week) = some td) :
    get_message_for_current_day env data current_date day_of_week =
      .ok (.pair (API_URL_POLL env)
        (STANDARD_TEXT ++ " " ++ td.startTime ++ "?")) := by
  have hnexC : ¬∃ a ∈ cds, a.date = current_date := by
    rintro ⟨a, ha, hae⟩
    exact hnc (List.mem_map.mpr ⟨a, ha, hae⟩)
  have hnexE : ¬∃ a ∈ eds, a.date = current_date := by
    rintro ⟨a, ha, hae⟩
    exact hne (List.mem_map.mpr ⟨a, ha, hae⟩)
  have hexT : ∃ t ∈ tds, t.weekDay.key = day_of_week := by
    refine ⟨td, List.mem_of_find?_eq_some hfind, ?_⟩
    have hp := List.find?_some hfind
    simpa using hp
  simp [get_message_for_current_day, hres, htd, hcd, hed, hnexC, hnexE, hexT, hfind]

/-- C7 witness: concrete instance with two entries for the same weekday; the
first one's start time wins. -/
theorem C7_witness :
    get_message_for_current_day
      { GREENAPI_URL := "https://api.example", GREENAPI_INSTANCE_ID := "11",
        GREENAPI_API_TOKEN := "tok", CHAT_ID := "chat@g.us",
        SANITY_SCHEDULE_URL := "https://sanity.example" }
      { result := some [{ trainingDays := some
                            [{ weekDay := { key := "tuesday" }, startTime := "18:00" },
                             { weekDay := { key := "tuesday" }, startTime := "19:00" }],
                          canceledDays := some [{ date := "2025-09-23" }],
                          exceptionDays := some [{ date := "2025-08-13", startTime := "18:00" }] }] }
      "2025-08-12" "tuesday"
      = .ok (.pair (API_URL_POLL
          { GREENAPI_URL := "https://api.example", GREENAPI_INSTANCE_ID := "11",
            GREENAPI_API_TOKEN := "tok", CHAT_ID := "chat@g.us",
            SANITY_SCHEDULE_URL := "https://sanity.example" })
          (STANDARD_TEXT ++ " " ++ "18:00" ++ "?")) :=
  C7_training_day_yields_first_match_poll _ _ _ _ _ _ _ _ _
    rfl rfl rfl rfl (by decide) (by decide)
    { weekDay := { key := "tuesday" }, startTime := "18:00" } (by decide)

/-- C4: when the date matches no canceledDays or exceptionDays entry and the
weekday matches no trainingDays entry, the resolver returns no message and
the process exits with code 0; absence of a message is not an error. -/
theorem C4_no_match_no_message_exit_zero
    (env : Env) (data : ScheduleData) (current_date day_of_week : String)
    (all_days : AllDays) (rest : List AllDays)
    (tds : List TrainingDay) (cds : List CanceledDay) (eds : List ExceptionDay)
    (sendOk : Bool)
    (hval : validate_environment env = true)
    (hres : data.result = some (all_days :: rest))
    (htd : all_days.trainingDays = some tds)
    (hcd : all_days.canceledDays = some cds)
    (hed : all_days.exceptionDays = some eds)
    (hnc : current_date ∉ cds.map (fun d => d.date))
    (hne : current_date ∉ eds.map (fun d => d.date))
    (hnt : ∀ t ∈ tds, t.weekDay.key ≠ day_of_week) :
    get_message_for_current_day env data current_date day_of_week = .ok .nothing
    ∧ main env current_date day_of_week (some data) sendOk
        = (.exitNoTraining, [.fetchCall])
    ∧ exit_code .exitNoTraining = 0 := by
  have hnexC : ¬∃ a ∈ cds, a.date = current_date := by
    rintro ⟨a, ha, hae⟩
    exact hnc (List.mem_map.mpr ⟨a, ha, hae⟩)
  have hnexE : ¬∃ a ∈ eds, a.date = current_date := by
    rintro ⟨a, ha, hae⟩
    exact hne (List.mem_map.mpr ⟨a, ha, hae⟩)
  have hnexT : ¬∃ t ∈ tds, t.weekDay.key = day_of_week := by
    rintro ⟨t, ht, he⟩
    exact hnt t ht he
  have hg : get_message_for_current_day env data current_date day_of_week
      = .ok .nothing := by
    simp [get_message_for_current_day, hres, htd, hcd, hed, hnexC, hnexE, hnexT]
  refine ⟨hg, ?_, rfl⟩
  simp [main, hval, USE_SAMPLE_RESPONSE, hg]

/-- A concrete well-formed environment used to instantiate the theorems. -/
def sampleEnv : Env :=
  { GREENAPI_URL := "https://api.example", GREENAPI_INSTANCE_ID := "11",
    GREENAPI_API_TOKEN := "tok", CHAT_ID := "chat@g.us",
    SANITY_SCHEDULE_URL := "https://sanity.example" }

/-- A concrete document with a Tuesday training day, one canceled date and
one exception date. -/
def docOnlyTuesday : ScheduleData :=
  { result := some [
      { trainingDays := some [{ weekDay := { key := "tuesday" }, startTime := "18:00" }]
        canceledDays := some [{ date := "2025-09-23" }]
        exceptionDays := some [{ date := "2025-12-22", startTime := "18:00" }] }] }

/-- C4 witness: a concrete no-match day. -/
theorem C4_witness :
    get_message_for_current_day sampleEnv docOnlyTuesday
        "2025-08-14" "thursday" = .ok .nothing
    ∧ main sampleEnv "2025-08-14" "thursday" (some docOnlyTuesday) true
        = (.exitNoTraining, [.fetchCall])
    ∧ exit_code .exitNoTraining = 0 :=
  C4_no_match_no_message_exit_zero _ _ _ _ _ _ _ _ _ true
    rfl rfl rfl rfl rfl (by decide) (by decide) (by decide)

/-- C5: on a non-cancellation message the payload has exactly the two fixed
options and multipleAnswers false; on the cancellation message it has only
the chat id and the message text, with no options. -/
theorem C5_build_payload_shapes (env : Env) (m : String) :
    (m ≠ CANCEL_TEXT →
      build_payload env (some m) = some
        { chatId := env.CHAT_ID, message := m, multipleAnswers := some false,
          options := some [{ optionName := POSITIVE_ANSWER },
                           { optionName := NEGATIVE_ANSWER }] })
    ∧ build_payload env (some CANCEL_TEXT) = some
        { chatId := env.CHAT_ID, message := CANCEL_TEXT,
          multipleAnswers := none, options := none } := by
  constructor
  · intro h
    simp [build_payload, h]
  · simp [build_payload]

/-- C5 witness: both payload shapes at a concrete environment and message. -/
theorem C5_witness :
    build_payload sampleEnv (some "Tervetuloa!") = some
      { chatId := sampleEnv.CHAT_ID, message := "Tervetuloa!",
        multipleAnswers := some false,
        options := some [{ optionName := POSITIVE_ANSWER },
                         { optionName := NEGATIVE_ANSWER }] }
    ∧ build_payload sampleEnv (some CANCEL_TEXT) = some
      { chatId := sampleEnv.CHAT_ID, message := CANCEL_TEXT,
        multipleAnswers := none, options := none } :=
  ⟨(C5_build_payload_shapes sampleEnv "Tervetuloa!").1 (by decide),
   (C5_build_payload_shapes sampleEnv "Tervetuloa!").2⟩

/-- A document whose first result block lacks the trainingDays key. -/
def docMissingTrainingDaysKey : ScheduleData :=
  { result := some [{ trainingDays := none,
                      canceledDays := some [{ date := "2025-08-11" }],
                      exceptionDays := some [{ date := "2025-08-11", startTime := "18:00" }] }] }

/-- C9: the structural validation only checks that result is present and
non-empty; on a document whose first result block lacks the trainingDays key
the resolver raises a KeyError (the lookup-error branch is reachable) instead
of returning the data-error value. -/
theorem C9_missing_inner_key_raises_keyerror :
    get_message_for_current_day sampleEnv docMissingTrainingDaysKey
      "2025-08-11" "monday" = .error "KeyError: trainingDays" := rfl

/-- An environment with the webhook base URL missing but everything else
present. -/
def envNoWebhookUrl : Env :=
  { GREENAPI_URL := "", GREENAPI_INSTANCE_ID := "11", GREENAPI_API_TOKEN := "tok",
    CHAT_ID := "chat@g.us", SANITY_SCHEDULE_URL := "https://sanity.example" }

/-- C6 counterexample: with the webhook base URL (GREENAPI_URL) empty and all
other settings present, validation still passes and the run proceeds to the
network: it fetches, sends to a URL built from the empty base, and exits 0 —
it does not exit 1 before a network call as the claim states. -/
theorem C6_counterexample_webhook_url_not_validated :
    envNoWebhookUrl.GREENAPI_URL = ""
    ∧ validate_environment envNoWebhookUrl = true
    ∧ main envNoWebhookUrl "2025-08-11" "monday" (some SAMPLE_RESPONSE) true
        = (.exitSuccess, [.fetchCall,
            .sendCall (API_URL_MESSAGE envNoWebhookUrl)
              (some { chatId := envNoWebhookUrl.CHAT_ID, message := CANCEL_TEXT,
                      multipleAnswers := none, options := none })])
    ∧ exit_code .exitSuccess = 0 :=
  ⟨rfl, rfl, rfl, rfl⟩

theorem mem_missing_of (env : Env) (name value : String)
    (hmem : (name, value) ∈ required_vars env) (hv : value = "") :
    name ∈ missing_env_vars env :=
  List.mem_map_of_mem _ (List.mem_filter.mpr ⟨hmem, by simp [hv]⟩)

/-- C6 (amended): if any of the instance identifier, API token, target chat
identifier or schedule-document URL is missing, the process exits with code 1
before any network call, printing the missing names; the webhook base URL is
not among the validated values. -/
theorem C6_missing_required_env_exits_before_network
    (env : Env) (current_date current_day : String)
    (fetch : Option ScheduleData) (sendOk : Bool)
    (h : env.GREENAPI_INSTANCE_ID = "" ∨ env.GREENAPI_API_TOKEN = ""
       ∨ env.CHAT_ID = "" ∨ env.SANITY_SCHEDULE_URL = "") :
    main env current_date current_day fetch sendOk
        = (.exitMissingEnv (missing_env_vars env), [])
      ∧ missing_env_vars env ≠ []
      ∧ (env.GREENAPI_INSTANCE_ID = "" → "GREENAPI_INSTANCE_ID" ∈ missing_env_vars env)
      ∧ (env.GREENAPI_API_TOKEN = "" → "GREENAPI_API_TOKEN" ∈ missing_env_vars env)
      ∧ (env.CHAT_ID = "" → "WHATSAPP_CHAT_ID" ∈ missing_env_vars env)
      ∧ (env.SANITY_SCHEDULE_URL = "" → "SANITY_SCHEDULE_URL" ∈ missing_env_vars env)
      ∧ exit_code (.exitMissingEnv (missing_env_vars env)) = 1 := by
  have hne : missing_env_vars env ≠ [] := by
    rcases h with h | h | h | h
    · exact List.ne_nil_of_mem (mem_missing_of env "GREENAPI_INSTANCE_ID"
        env.GREENAPI_INSTANCE_ID (by simp [required_vars]) h)
    · exact List.ne_nil_of_mem (mem_missing_of env "GREENAPI_API_TOKEN"
        env.GREENAPI_API_TOKEN (by simp [required_vars]) h)
    · exact List.ne_nil_of_mem (mem_missing_of env "WHATSAPP_CHAT_ID"
        env.CHAT_ID (by simp [required_vars]) h)
    · exact List.ne_nil_of_mem (mem_missing_of env "SANITY_SCHEDULE_URL"
        env.SANITY_SCHEDULE_URL (by simp [required_vars]) h)
  have hval : validate_environment env = false := by
    simp only [validate_environment, beq_eq_false_iff_ne, ne_eq]
    exact hne
  refine ⟨?_, hne, ?_, ?_, ?_, ?_, rfl⟩
  · simp [main, hval]
  · exact fun hv => mem_missing_of env "GREENAPI_INSTANCE_ID"
      env.GREENAPI_INSTANCE_ID (by simp [required_vars]) hv
  · exact fun hv => mem_missing_of env "GREENAPI_API_TOKEN"
      env.GREENAPI_API_TOKEN (by simp [required_vars]) hv
  · exact fun hv => mem_missing_of env "WHATSAPP_CHAT_ID"
      env.CHAT_ID (by simp [required_vars]) hv
  · exact fun hv => mem_missing_of env "SANITY_SCHEDULE_URL"
      env.SANITY_SCHEDULE_URL (by simp [required_vars]) hv

/-- An environment with the instance identifier missing. -/
def envNoInstance : Env :=
  { GREENAPI_URL := "https://api.example", GREENAPI_INSTANCE_ID := "",
    GREENAPI_API_TOKEN := "tok", CHAT_ID := "chat@g.us",
    SANITY_SCHEDULE_URL := "https://sanity.example" }

/-- C6 witness: the amended rule at a concrete environment missing only the
instance identifier. -/
theorem C6_witness :
    main envNoInstance "2025-08-11" "monday" none true
        = (.exitMissingEnv (missing_env_vars envNoInstance), [])
      ∧ missing_env_vars envNoInstance ≠ []
      ∧ (envNoInstance.GREENAPI_INSTANCE_ID = ""
          → "GREENAPI_INSTANCE_ID" ∈ missing_env_vars envNoInstance)
      ∧ (envNoInstance.GREENAPI_API_TOKEN = ""
          → "GREENAPI_API_TOKEN" ∈ missing_env_vars envNoInstance)
      ∧ (envNoInstance.CHAT_ID = ""
          → "WHATSAPP_CHAT_ID" ∈ missing_env_vars envNoInstance)
      ∧ (envNoInstance.SANITY_SCHEDULE_URL = ""
          → "SANITY_SCHEDULE_URL" ∈ missing_env_vars envNoInstance)
      ∧ exit_code (.exitMissingEnv (missing_env_vars envNoInstance)) = 1 :=
  C6_missing_required_env_exits_before_network envNoInstance "2025-08-11" "monday"
    none true (Or.inl rfl)

/-- A document with the result key missing entirely. -/
def docNoResult : ScheduleData := { result := none }

/-- C3 (code bug): on a document with no result field the resolver returns
the bare MESSAGE_ERROR string; main's two-element unpacking of it raises
ValueError, so the run dies with an unhandled exception (exit code 1 via a
traceback) and never prints the descriptive data-error message of its
dedicated branch. -/
theorem C3_data_error_crashes_with_valueerror :
    get_message_for_current_day sampleEnv docNoResult "2025-08-11" "monday"
      = .ok (.errStr MESSAGE_ERROR)
    ∧ main sampleEnv "2025-08-11" "monday" (some docNoResult) true
      = (.uncaught "ValueError", [.fetchCall])
    ∧ (main sampleEnv "2025-08-11" "monday" (some docNoResult) true).1
      ≠ .exitDataError := by
  have h2 : main sampleEnv "2025-08-11" "monday" (some docNoResult) true
      = (.uncaught "ValueError", [.fetchCall]) := rfl
  refine ⟨rfl, h2, ?_⟩
  rw [h2]
  simp

/-- C10: the data-error case returns the bare error string while every
success case returns a url-message pair; the error string does not have
length two, so main's two-element destructuring raises ValueError on it and
the dedicated branch comparing the message to MESSAGE_ERROR is unreachable
for every input. -/
theorem C10_error_string_never_reaches_dedicated_branch :
    (∀ (env : Env) (data : ScheduleData) (current_date day_of_week s : String),
        get_message_for_current_day env data current_date day_of_week
          = .ok (.errStr s) → s = MESSAGE_ERROR)
    ∧ MESSAGE_ERROR.length ≠ 2
    ∧ unpack_two MESSAGE_ERROR = none
    ∧ (∀ (env : Env) (current_date day_of_week : String)
         (fetch : Option ScheduleData) (sendOk : Bool),
        (main env current_date day_of_week fetch sendOk).1 ≠ .exitDataError)
    ∧ (∀ (env : Env) (data : ScheduleData) (current_date day_of_week : String)
         (sendOk : Bool),
        validate_environment env = true →
        (data.result = none ∨ data.result = some []) →
        main env current_date day_of_week (some data) sendOk
          = (.uncaught "ValueError", [.fetchCall])) := by
  refine ⟨errStr_eq_message_error, by decide, rfl, ?_, ?_⟩
  · intro env current_date day_of_week fetch sendOk
    unfold main
    cases hval : validate_environment env with
    | false => simp
    | true =>
      simp only [hval, Bool.not_true, Bool.false_eq_true, if_false, USE_SAMPLE_RESPONSE]
      cases fetch with
      | none => simp
      | some data =>
        cases hg : get_message_for_current_day env data current_date day_of_week with
        | error e => simp [hg]
        | ok r =>
          cases r with
          | nothing => simp [hg]
          | errStr s =>
            have hs := errStr_eq_message_error env data current_date day_of_week s hg
            subst hs
            simp [hg, show unpack_two MESSAGE_ERROR = none from rfl]
          | pair url m =>
            have hm := pair_message_ne_error env data current_date day_of_week url m hg
            cases sendOk <;> simp [hg, main_after_unpack, hm]
  · intro env data current_date day_of_week sendOk hval hres
    have hg : get_message_for_current_day env data current_date day_of_week
        = .ok (.errStr MESSAGE_ERROR) := by
      rcases hres with h | h <;> simp [get_message_for_current_day, h]
    simp [main, hval, USE_SAMPLE_RESPONSE, hg,
      show unpack_two MESSAGE_ERROR = none from rfl]

/-- C10 witness: the crash at a concrete environment and empty-result
document. -/
theorem C10_witness :
    main sampleEnv "2025-08-12" "tuesday" (some { result := some [] }) true
      = (.uncaught "ValueError", [.fetchCall]) :=
  C10_error_string_never_reaches_dedicated_branch.2.2.2.2 sampleEnv
    { result := some [] } "2025-08-12" "tuesday" true rfl (Or.inr rfl)

/-- Modelled from the spec: the fixed messages of the Day-Resolver variant.
The spec describes the Friday message only as a "test message" invitation and
does not give the Saturday text; both are fixed constants here. -/
def FRIDAY_MESSAGE : String := "test message"

/-- Modelled from the spec: the fixed Saturday message of the Day-Resolver
variant (text not given by the spec). -/
def SATURDAY_MESSAGE : String := "saturday message"

/-- Modelled from the spec: the Day-Resolver variant (the superseded first
version of the script, not present under src/) maps the current weekday name
(lowercase, Finnish local time) to a fixed hardcoded message for friday and
saturday, and produces no message for every other weekday name. -/
def resolve_day (day_of_week : String) : Option String :=
  if day_of_week == "friday" then some FRIDAY_MESSAGE
  else if day_of_week == "saturday" then some SATURDAY_MESSAGE
  else none

/-- C8: the Day-Resolver returns its fixed messages for friday and saturday
and no message for every other weekday name. -/
theorem C8_day_resolver_fixed_days (day : String) :
    resolve_day "friday" = some FRIDAY_MESSAGE
    ∧ resolve_day "saturday" = some SATURDAY_MESSAGE
    ∧ (day ≠ "friday" → day ≠ "saturday" → resolve_day day = none) := by
  refine ⟨rfl, rfl, fun h1 h2 => ?_⟩
  simp [resolve_day, h1, h2]

/-- C8 witness: a weekday other than friday and saturday gets no message. -/
theorem C8_witness : resolve_day "monday" = none :=
  (C8_day_resolver_fixed_days "monday").2.2 (by decide) (by decide)

end WhatsappPoll
